import Mathlib

/-!
Verification of the payload-construction and validation logic of the
`steps-slack-message` build step (`main.go`).

The program reads its configuration from environment variables into a
`ConfigsModel`, validates it, builds a Slack `RequestParams` value, and
serializes it with Go's `encoding/json`.  The definitions below are a
shallow embedding of those functions: environment access is modelled as a
function `String → String` (Go's `os.Getenv` returns `""` for an absent
variable), console printing is dropped, and the `os.Exit(1)` abort on an
invalid formatting mode inside `CreatePayloadParam` is modelled as `none`.
-/

/-- Go constant `formattingModeAttachment` (main.go line 16). -/
def formattingModeAttachment : String := "attachment"

/-- Go constant `formattingModeText` (main.go line 17). -/
def formattingModeText : String := "text"

/-- Go struct `ConfigsModel` (main.go lines 21-40).  Defaults are the Go
zero values, which is also what `os.Getenv` yields for absent variables. -/
structure ConfigsModel where
  WebhookURL : String := ""
  Channel : String := ""
  FromUsername : String := ""
  FromUsernameOnError : String := ""
  Message : String := ""
  MessageOnError : String := ""
  FormattingMode : String := ""
  Color : String := ""
  ColorOnError : String := ""
  Emoji : String := ""
  EmojiOnError : String := ""
  IconURL : String := ""
  IconURLOnError : String := ""
  IsDebugMode : Bool := false
  IsBuildFailed : Bool := false
deriving Repr, DecidableEq

/-- Go `createConfigsModelFromEnvs` (main.go lines 42-62).  The process
environment is modelled as a total function `env : String → String`;
`os.Getenv` returns the empty string when the variable is absent. -/
def createConfigsModelFromEnvs (env : String → String) : ConfigsModel :=
  { WebhookURL := env "webhook_url"
    Channel := env "channel"
    FromUsername := env "from_username"
    FromUsernameOnError := env "from_username_on_error"
    Message := env "message"
    MessageOnError := env "message_on_error"
    FormattingMode := env "formatting_mode"
    Emoji := env "emoji"
    EmojiOnError := env "emoji_on_error"
    Color := env "color"
    ColorOnError := env "color_on_error"
    IconURL := env "icon_url"
    IconURLOnError := env "icon_url_on_error"
    IsDebugMode := env "is_debug_mode" == "yes"
    IsBuildFailed := env "STEPLIB_BUILD_STATUS" != "0" }

/-- Go method `(configs ConfigsModel) validate() error` (main.go lines
87-108): `none` stands for the Go `nil` error, `some msg` for
`errors.New(msg)` / `fmt.Errorf`.  The Go `switch` accepts the two
recognized modes, reports the empty mode, and reports any other value in
its `default` arm. -/
def ConfigsModel.validate (configs : ConfigsModel) : Option String :=
  if configs.WebhookURL = "" then
    some "No Webhook URL parameter specified!"
  else if configs.Message = "" then
    some "No Message parameter specified!"
  else if configs.Color = "" then
    some "No Color parameter specified!"
  else if configs.FormattingMode = formattingModeText ∨
      configs.FormattingMode = formattingModeAttachment then
    none
  else if configs.FormattingMode = "" then
    some "No FormattingMode parameter specified!"
  else
    some ("Invalid FormattingMode: " ++ configs.FormattingMode)

/-- Go struct `AttachmentItemModel` (main.go lines 111-115): `fallback`
and `text` are always serialized, `color` carries `omitempty`. -/
structure AttachmentItemModel where
  Fallback : String := ""
  Text : String := ""
  Color : String := ""
deriving Repr, DecidableEq

/-- Go struct `RequestParams` (main.go lines 118-128).  `Attachments` is a
Go slice (`omitempty`), the four optional fields are `*string` pointers
WITHOUT `omitempty`, modelled as `Option String` (`none` = nil pointer).
The defaults are the Go zero value `RequestParams\x7b\x7d`. -/
structure RequestParams where
  Text : String := ""
  Attachments : List AttachmentItemModel := []
  Channel : Option String := none
  Username : Option String := none
  EmojiIcon : Option String := none
  IconURL : Option String := none
deriving Repr, DecidableEq

/-- Finalized color (main.go lines 133-140): start from `Color`; when the
build failed and `ColorOnError` is non-empty, use `ColorOnError` (the
empty case only prints an informational notice and keeps the default). -/
def msgColor (configs : ConfigsModel) : String :=
  if configs.IsBuildFailed then
    if configs.ColorOnError = "" then configs.Color else configs.ColorOnError
  else configs.Color

/-- Finalized message text (main.go lines 141-148), same shape as
`msgColor` with `Message` / `MessageOnError`. -/
def msgText (configs : ConfigsModel) : String :=
  if configs.IsBuildFailed then
    if configs.MessageOnError = "" then configs.Message else configs.MessageOnError
  else configs.Message

/-- Optional channel field (main.go lines 163-166): set only when
`Channel` is non-empty; there is no on-error variant. -/
def reqChannel (configs : ConfigsModel) : Option String :=
  if configs.Channel ≠ "" then some configs.Channel else none

/-- Optional username field (main.go lines 167-177): set when
`FromUsername` is non-empty, then overwritten by `FromUsernameOnError`
when the build failed and that value is non-empty. -/
def reqUsername (configs : ConfigsModel) : Option String :=
  let p := if configs.FromUsername ≠ "" then some configs.FromUsername else none
  if configs.IsBuildFailed then
    if configs.FromUsernameOnError = "" then p else some configs.FromUsernameOnError
  else p

/-- Optional emoji-icon field (main.go lines 179-189), same shape as
`reqUsername` with `Emoji` / `EmojiOnError`. -/
def reqEmojiIcon (configs : ConfigsModel) : Option String :=
  let p := if configs.Emoji ≠ "" then some configs.Emoji else none
  if configs.IsBuildFailed then
    if configs.EmojiOnError = "" then p else some configs.EmojiOnError
  else p

/-- Optional icon-URL field (main.go lines 191-201), same shape as
`reqUsername` with `IconURL` / `IconURLOnError`. -/
def reqIconURL (configs : ConfigsModel) : Option String :=
  let p := if configs.IconURL ≠ "" then some configs.IconURL else none
  if configs.IsBuildFailed then
    if configs.IconURLOnError = "" then p else some configs.IconURLOnError
  else p

/-- The `RequestParams` value assembled by `CreatePayloadParam` (main.go
lines 150-205): the formatting-mode branch fills `Attachments` or `Text`
(any other mode hits `os.Exit(1)`, modelled as `none`), then the optional
fields are attached, and a present icon URL clears the emoji icon
(lines 203-205). -/
def buildRequestParams (configs : ConfigsModel) : Option RequestParams :=
  let base : Option RequestParams :=
    if configs.FormattingMode = formattingModeAttachment then
      some { Text := "",
             Attachments := [{ Fallback := msgText configs,
                               Text := msgText configs,
                               Color := msgColor configs }] }
    else if configs.FormattingMode = formattingModeText then
      some { Text := msgText configs }
    else
      none
  base.map fun reqParams =>
    { reqParams with
      Channel := reqChannel configs
      Username := reqUsername configs
      EmojiIcon := if (reqIconURL configs).isSome then none else reqEmojiIcon configs
      IconURL := reqIconURL configs }

/-- One hexadecimal digit, lowercase, as Go's `encoding/json` prints it. -/
def hexDigit (n : Nat) : String :=
  String.singleton (("0123456789abcdef".toList).getD n '0')

/-- Escaping of one character by Go's `encoding/json` string encoder with
its default HTML escaping: `"` and `\` are backslash-escaped, newline /
carriage return / tab use their short forms, other control characters
become `\u00XX`; the three HTML-sensitive characters get their
`\u003c`-style escapes; U+2028 / U+2029 are escaped; rest verbatim. -/
def goEscapeChar (c : Char) : String :=
  if c = '"' then "\\\""
  else if c = '\\' then "\\\\"
  else if c = '\n' then "\\n"
  else if c = '\r' then "\\r"
  else if c = '\t' then "\\t"
  else if c.toNat < 32 then "\\u00" ++ hexDigit (c.toNat / 16) ++ hexDigit (c.toNat % 16)
  else if c = '<' then "\\u003c"
  else if c = '>' then "\\u003e"
  else if c = '&' then "\\u0026"
  else if c.toNat = 8232 then "\\u2028"
  else if c.toNat = 8233 then "\\u2029"
  else String.singleton c

/-- A Go JSON string literal: the escaped characters between quotes. -/
def goJSONString (s : String) : String :=
  "\"" ++ String.join (s.toList.map goEscapeChar) ++ "\""

/-- Serialization of a `*string` field without `omitempty`: Go's
`encoding/json` writes `null` for a nil pointer and the quoted string
otherwise.  This is the crux of the optional fields of `RequestParams`:
an absent optional field still contributes its key, paired with `null`. -/
def jsonOptValue : Option String → String
  | none => "null"
  | some s => goJSONString s

/-- Go `encoding/json` output for one `AttachmentItemModel`: `fallback`
and `text` always, `color` only when non-empty (`omitempty`). -/
def marshalAttachmentItem (a : AttachmentItemModel) : String :=
  "\x7b\"fallback\":" ++ goJSONString a.Fallback
    ++ ",\"text\":" ++ goJSONString a.Text
    ++ (if a.Color = "" then "" else ",\"color\":" ++ goJSONString a.Color)
    ++ "\x7d"

/-- Go `encoding/json.Marshal` output for `RequestParams`, following the
struct tags of main.go lines 118-128: `text` always, `attachments` only
when the slice is non-empty (`omitempty`), and the four pointer fields
always (no `omitempty`), with `null` for a nil pointer. -/
def marshalRequestParams (p : RequestParams) : String :=
  "\x7b\"text\":" ++ goJSONString p.Text
    ++ (if p.Attachments.isEmpty then ""
        else ",\"attachments\":["
          ++ String.intercalate "," (p.Attachments.map marshalAttachmentItem) ++ "]")
    ++ ",\"channel\":" ++ jsonOptValue p.Channel
    ++ ",\"username\":" ++ jsonOptValue p.Username
    ++ ",\"icon_emoji\":" ++ jsonOptValue p.EmojiIcon
    ++ ",\"icon_url\":" ++ jsonOptValue p.IconURL
    ++ "\x7d"

/-- The `json.Marshal` call of main.go line 212, typed like Go's
`([]byte, error)` result.  For `RequestParams` (strings, a slice of
string structs, `*string` pointers) `encoding/json` cannot fail, so the
result is always `Except.ok`; the error branch is kept in the type so the
caller's error handling (lines 213-215) can be stated faithfully. -/
def jsonMarshalRequestParams (p : RequestParams) : Except String String :=
  Except.ok (marshalRequestParams p)

/-- The tail of `CreatePayloadParam` (main.go lines 212-218): on a
marshalling error the Go code executes `return "", nil`, discarding the
error; on success it returns the JSON string and a `nil` error.  The
second component is the returned Go `error` value. -/
def serializePayload : Except String String → String × Option String
  | Except.error _ => ("", none)
  | Except.ok s => (s, none)

/-- Go `CreatePayloadParam` (main.go lines 131-219).  `none` models the
`os.Exit(1)` abort on an invalid formatting mode (lines 157-160);
otherwise the result carries the returned `(string, error)` pair. -/
def CreatePayloadParam (configs : ConfigsModel) : Option (String × Option String) :=
  (buildRequestParams configs).map fun reqParams =>
    serializePayload (jsonMarshalRequestParams reqParams)

/-- Modelled from the spec: the override rule, "use the on-error variant
if-and-only-if the build failed AND that on-error variant is non-empty;
otherwise fall back to the normal variant".  Written from the spec's
words, to be compared with the code's finalizers. -/
def specOverrideRule (buildFailed : Bool) (normal onError : String) : String :=
  if buildFailed ∧ onError ≠ "" then onError else normal

/-- Modelled from the spec: an optional payload field is present exactly
when its finalized value is non-empty. -/
def presentIfNonEmpty (s : String) : Option String :=
  if s = "" then none else some s

/-- The spec's `text`-mode example configuration: mode `text`, message
"Build OK", color "good", build not failed, every optional input empty. -/
def exampleTextConfigs : ConfigsModel :=
  { WebhookURL := "https://hooks.example.com/services/T0/B0/X",
    Message := "Build OK",
    FormattingMode := "text",
    Color := "good",
    IsBuildFailed := false }

/-- The serialized payload the program produces for
`exampleTextConfigs`: the four optional pointer fields are serialized as
`null` (their JSON tags carry no `omitempty`). -/
def exampleTextPayload : String :=
  "\x7b\"text\":\"Build OK\",\"channel\":null,\"username\":null,\"icon_emoji\":null,\"icon_url\":null\x7d"

/-- The `RequestParams` value built for `exampleTextConfigs`. -/
def exampleTextParams : RequestParams := { Text := "Build OK" }

/-- An `attachment`-mode configuration with on-error variants, taken from
the spec's second example, with the build failed. -/
def exampleAttachmentConfigs : ConfigsModel :=
  { WebhookURL := "https://hooks.example.com/services/T0/B0/X",
    Message := "Build OK",
    MessageOnError := "Build FAILED",
    FormattingMode := "attachment",
    Color := "good",
    ColorOnError := "danger",
    IsBuildFailed := true }

/-- The `RequestParams` value built for `exampleAttachmentConfigs`. -/
def exampleAttachmentParams : RequestParams :=
  { Text := "",
    Attachments := [{ Fallback := "Build FAILED", Text := "Build FAILED",
                      Color := "danger" }] }

/-- A `text`-mode configuration that resolves both an emoji and an icon
URL, with the build successful. -/
def exampleIconConfigs : ConfigsModel :=
  { WebhookURL := "https://hooks.example.com/services/T0/B0/X",
    Message := "Build OK",
    FormattingMode := "text",
    Color := "good",
    Emoji := ":tada:",
    IconURL := "https://img.example.com/icon.png",
    IsBuildFailed := false }

/-- The `RequestParams` value built for `exampleIconConfigs`: the icon
URL is kept, the resolved emoji is dropped. -/
def exampleIconParams : RequestParams :=
  { Text := "Build OK",
    IconURL := some "https://img.example.com/icon.png" }

/-- A successful-build configuration in which every on-error variant is
nevertheless set. -/
def exampleSuccessConfigs : ConfigsModel :=
  { WebhookURL := "https://hooks.example.com/services/T0/B0/X",
    FromUsername := "build-bot",
    FromUsernameOnError := "alarm-bot",
    Message := "Build OK",
    MessageOnError := "Build FAILED",
    FormattingMode := "text",
    Color := "good",
    ColorOnError := "danger",
    Emoji := ":white_check_mark:",
    EmojiOnError := ":x:",
    IconURL := "",
    IconURLOnError := "https://img.example.com/error.png",
    IsBuildFailed := false }

theorem msgColor_eq_override (c : ConfigsModel) :
    msgColor c = specOverrideRule c.IsBuildFailed c.Color c.ColorOnError := by
  cases hb : c.IsBuildFailed <;> by_cases h : c.ColorOnError = "" <;>
    simp [msgColor, specOverrideRule, hb, h]

theorem msgText_eq_override (c : ConfigsModel) :
    msgText c = specOverrideRule c.IsBuildFailed c.Message c.MessageOnError := by
  cases hb : c.IsBuildFailed <;> by_cases h : c.MessageOnError = "" <;>
    simp [msgText, specOverrideRule, hb, h]

theorem reqChannel_eq_present (c : ConfigsModel) :
    reqChannel c = presentIfNonEmpty c.Channel := by
  by_cases h : c.Channel = "" <;> simp [reqChannel, presentIfNonEmpty, h]

theorem reqUsername_eq_override (c : ConfigsModel) :
    reqUsername c =
      presentIfNonEmpty
        (specOverrideRule c.IsBuildFailed c.FromUsername c.FromUsernameOnError) := by
  cases hb : c.IsBuildFailed <;> by_cases h : c.FromUsernameOnError = "" <;>
    by_cases hn : c.FromUsername = "" <;>
      simp [reqUsername, presentIfNonEmpty, specOverrideRule, hb, h, hn]

theorem reqEmojiIcon_eq_override (c : ConfigsModel) :
    reqEmojiIcon c =
      presentIfNonEmpty (specOverrideRule c.IsBuildFailed c.Emoji c.EmojiOnError) := by
  cases hb : c.IsBuildFailed <;> by_cases h : c.EmojiOnError = "" <;>
    by_cases hn : c.Emoji = "" <;>
      simp [reqEmojiIcon, presentIfNonEmpty, specOverrideRule, hb, h, hn]

theorem reqIconURL_eq_override (c : ConfigsModel) :
    reqIconURL c =
      presentIfNonEmpty (specOverrideRule c.IsBuildFailed c.IconURL c.IconURLOnError) := by
  cases hb : c.IsBuildFailed <;> by_cases h : c.IconURLOnError = "" <;>
    by_cases hn : c.IconURL = "" <;>
      simp [reqIconURL, presentIfNonEmpty, specOverrideRule, hb, h, hn]

/-- C2: for every settings value and every overridable attribute (color,
message text, username, emoji icon, icon URL), `CreatePayloadParam`
finalizes the attribute to its on-error variant exactly when the
build-failed flag is true and the on-error variant is non-empty, and
keeps the normal variant otherwise; for the three optional attributes the
finalized value is attached exactly when it is non-empty. -/
theorem C2_override_rule_per_attribute (configs : ConfigsModel) :
    msgColor configs = specOverrideRule configs.IsBuildFailed configs.Color configs.ColorOnError ∧
    msgText configs = specOverrideRule configs.IsBuildFailed configs.Message configs.MessageOnError ∧
    reqUsername configs =
      presentIfNonEmpty
        (specOverrideRule configs.IsBuildFailed configs.FromUsername configs.FromUsernameOnError) ∧
    reqEmojiIcon configs =
      presentIfNonEmpty (specOverrideRule configs.IsBuildFailed configs.Emoji configs.EmojiOnError) ∧
    reqIconURL configs =
      presentIfNonEmpty
        (specOverrideRule configs.IsBuildFailed configs.IconURL configs.IconURLOnError) :=
  ⟨msgColor_eq_override configs, msgText_eq_override configs,
   reqUsername_eq_override configs, reqEmojiIcon_eq_override configs,
   reqIconURL_eq_override configs⟩

/-- C7: the resolved build-failed flag is false exactly when the
`STEPLIB_BUILD_STATUS` environment value is the success sentinel `"0"`;
in particular an absent (empty) status value resolves to `true`. -/
theorem C7_build_failed_default (env : String → String) :
    ((createConfigsModelFromEnvs env).IsBuildFailed = false ↔
      env "STEPLIB_BUILD_STATUS" = "0") ∧
    (env "STEPLIB_BUILD_STATUS" = "" →
      (createConfigsModelFromEnvs env).IsBuildFailed = true) := by
  constructor
  · by_cases h : env "STEPLIB_BUILD_STATUS" = "0" <;>
      simp [createConfigsModelFromEnvs, h]
  · intro h
    simp [createConfigsModelFromEnvs, h]

/-- C7 witness: with an empty environment the status value is empty and
the build is considered failed. -/
theorem C7_build_failed_default_witness :
    (fun _ : String => "") "STEPLIB_BUILD_STATUS" = "" ∧
    (createConfigsModelFromEnvs (fun _ => "")).IsBuildFailed = true :=
  ⟨rfl, (C7_build_failed_default (fun _ => "")).2 rfl⟩

/-- C8: on a marshalling error the tail of `CreatePayloadParam` returns
the empty string together with a nil error (the error is swallowed), and
consequently `CreatePayloadParam` never returns a non-nil error. -/
theorem C8_marshal_error_swallowed :
    (∀ e : String, serializePayload (Except.error e) = ("", none)) ∧
    (∀ (configs : ConfigsModel) (r : String × Option String),
      CreatePayloadParam configs = some r → r.2 = none) := by
  constructor
  · intro e
    rfl
  · intro configs r h
    unfold CreatePayloadParam at h
    rw [Option.map_eq_some'] at h
    obtain ⟨p, -, hp⟩ := h
    rw [← hp]
    rfl

/-- C8 witness: the error branch at a concrete error value, and the nil
error component of a concrete successful run. -/
theorem C8_marshal_error_swallowed_witness :
    serializePayload (Except.error "json: marshal failure") = ("", none) ∧
    ((exampleTextPayload, (none : Option String)).2 = none) :=
  ⟨C8_marshal_error_swallowed.1 "json: marshal failure",
   C8_marshal_error_swallowed.2 exampleTextConfigs (exampleTextPayload, none) rfl⟩

/-- C9: when the build did not fail, every attribute keeps its normal
variant: the finalized color and message are `Color` and `Message`, and
the optional username, emoji and icon-URL fields carry the normal values
(present exactly when non-empty), regardless of the on-error inputs. -/
theorem C9_success_keeps_normal_variants (configs : ConfigsModel)
    (h : configs.IsBuildFailed = false) :
    msgColor configs = configs.Color ∧
    msgText configs = configs.Message ∧
    reqUsername configs = presentIfNonEmpty configs.FromUsername ∧
    reqEmojiIcon configs = presentIfNonEmpty configs.Emoji ∧
    reqIconURL configs = presentIfNonEmpty configs.IconURL := by
  refine ⟨?_, ?_, ?_, ?_, ?_⟩ <;>
    simp [msgColor, msgText, reqUsername, reqEmojiIcon, reqIconURL,
      presentIfNonEmpty, h]

/-- C9 witness: a successful build with every on-error variant set keeps
the normal color, message, username and emoji, and the icon URL stays
absent even though an on-error icon URL is configured. -/
theorem C9_success_keeps_normal_variants_witness :
    exampleSuccessConfigs.IsBuildFailed = false ∧
    (msgColor exampleSuccessConfigs = exampleSuccessConfigs.Color ∧
     msgText exampleSuccessConfigs = exampleSuccessConfigs.Message ∧
     reqUsername exampleSuccessConfigs = presentIfNonEmpty exampleSuccessConfigs.FromUsername ∧
     reqEmojiIcon exampleSuccessConfigs = presentIfNonEmpty exampleSuccessConfigs.Emoji ∧
     reqIconURL exampleSuccessConfigs = presentIfNonEmpty exampleSuccessConfigs.IconURL) :=
  ⟨rfl, C9_success_keeps_normal_variants exampleSuccessConfigs rfl⟩

theorem buildRequestParams_inv (c : ConfigsModel) (p : RequestParams)
    (h : buildRequestParams c = some p) :
    p.Channel = reqChannel c ∧
    p.Username = reqUsername c ∧
    p.IconURL = reqIconURL c ∧
    p.EmojiIcon = (if (reqIconURL c).isSome then none else reqEmojiIcon c) ∧
    ((c.FormattingMode = formattingModeAttachment ∧
        p.Text = "" ∧
        p.Attachments =
          [{ Fallback := msgText c, Text := msgText c, Color := msgColor c }]) ∨
     (c.FormattingMode = formattingModeText ∧
        p.Text = msgText c ∧ p.Attachments = [])) := by
  unfold buildRequestParams at h
  rw [Option.map_eq_some'] at h
  obtain ⟨base, hbase, hp⟩ := h
  subst hp
  split_ifs at hbase with h1 h2
  · cases hbase
    exact ⟨rfl, rfl, rfl, rfl, Or.inl ⟨h1, rfl, rfl⟩⟩
  · cases hbase
    exact ⟨rfl, rfl, rfl, rfl, Or.inr ⟨h2, rfl, rfl⟩⟩

/-- C1 counterexample: on the spec's own example input (`text` mode,
message "Build OK", color "good", build not failed, all optional inputs
empty) the serialized payload is not `\x7b"text":"Build OK"\x7d`: the
four optional pointer fields carry no `omitempty` in their JSON tags, so
the absent fields are serialized as `null` members, not omitted. -/
theorem C1_counterexample :
    CreatePayloadParam exampleTextConfigs = some (exampleTextPayload, none) ∧
    exampleTextPayload ≠ "\x7b\"text\":\"Build OK\"\x7d" :=
  ⟨rfl, by decide⟩

/-- C1 (amended): each optional payload field (channel, username,
emoji icon, icon URL) is attached to the request-parameter struct exactly
when its finalized value is non-empty (the emoji icon additionally
requires the icon URL to be absent), but in the serialized JSON an absent
optional field still appears as a `null` member rather than being
omitted; in particular the spec's `text`-mode example serializes with the
four `null` fields. -/
theorem C1_optional_field_assembly (configs : ConfigsModel) (p : RequestParams)
    (h : buildRequestParams configs = some p) :
    p.Channel = presentIfNonEmpty configs.Channel ∧
    p.Username =
      presentIfNonEmpty
        (specOverrideRule configs.IsBuildFailed configs.FromUsername
          configs.FromUsernameOnError) ∧
    p.IconURL =
      presentIfNonEmpty
        (specOverrideRule configs.IsBuildFailed configs.IconURL
          configs.IconURLOnError) ∧
    (p.IconURL = none →
      p.EmojiIcon =
        presentIfNonEmpty
          (specOverrideRule configs.IsBuildFailed configs.Emoji
            configs.EmojiOnError)) ∧
    CreatePayloadParam exampleTextConfigs = some (exampleTextPayload, none) := by
  obtain ⟨hc, hu, hi, he, -⟩ := buildRequestParams_inv configs p h
  refine ⟨?_, ?_, ?_, ?_, rfl⟩
  · rw [hc, reqChannel_eq_present]
  · rw [hu, reqUsername_eq_override]
  · rw [hi, reqIconURL_eq_override]
  · intro hnone
    have hns : (reqIconURL configs).isSome = false := by
      rw [← hi, hnone]
      rfl
    rw [he, hns]
    simp [reqEmojiIcon_eq_override]

/-- C1 witness: the amended statement applied to a concrete resolved
configuration with a channel left empty and an icon URL set. -/
theorem C1_optional_field_assembly_witness :
    buildRequestParams exampleIconConfigs = some exampleIconParams ∧
    exampleIconParams.Channel = presentIfNonEmpty exampleIconConfigs.Channel ∧
    exampleIconParams.IconURL =
      presentIfNonEmpty
        (specOverrideRule exampleIconConfigs.IsBuildFailed
          exampleIconConfigs.IconURL exampleIconConfigs.IconURLOnError) :=
  ⟨rfl, (C1_optional_field_assembly exampleIconConfigs exampleIconParams rfl).1,
    (C1_optional_field_assembly exampleIconConfigs exampleIconParams rfl).2.2.1⟩

/-- C3: whenever the finalized icon URL is present, the built payload
carries the icon-URL field and the emoji-icon field is cleared,
regardless of whether an emoji value was resolved. -/
theorem C3_icon_url_precedence (configs : ConfigsModel) (p : RequestParams)
    (h : buildRequestParams configs = some p)
    (hicon : (reqIconURL configs).isSome = true) :
    p.IconURL.isSome = true ∧ p.EmojiIcon = none := by
  obtain ⟨-, -, hi, he, -⟩ := buildRequestParams_inv configs p h
  constructor
  · rw [hi]
    exact hicon
  · rw [he, hicon]
    simp

/-- C3 witness: a configuration resolving both an emoji and an icon URL
keeps the icon URL and drops the emoji. -/
theorem C3_icon_url_precedence_witness :
    buildRequestParams exampleIconConfigs = some exampleIconParams ∧
    (reqIconURL exampleIconConfigs).isSome = true ∧
    (exampleIconParams.IconURL.isSome = true ∧
      exampleIconParams.EmojiIcon = none) :=
  ⟨rfl, rfl, C3_icon_url_precedence exampleIconConfigs exampleIconParams rfl rfl⟩

/-- C4: in `attachment` mode (after validation) the built payload holds
exactly one attachment whose fallback and text equal the finalized
message and whose color is the finalized color, and the top-level text
field is empty. -/
theorem C4_attachment_mode (configs : ConfigsModel) (p : RequestParams)
    (hmode : configs.FormattingMode = formattingModeAttachment)
    (hval : configs.validate = none)
    (h : buildRequestParams configs = some p) :
    p.Attachments =
      [{ Fallback := msgText configs, Text := msgText configs,
         Color := msgColor configs }] ∧
    p.Text = "" := by
  obtain ⟨-, -, -, -, hbranch⟩ := buildRequestParams_inv configs p h
  rcases hbranch with ⟨-, ht, ha⟩ | ⟨hm, -, -⟩
  · exact ⟨ha, ht⟩
  · rw [hmode] at hm
    exact absurd hm (by decide)

/-- C4 witness: the spec's `attachment`-mode example with the build
failed yields the single "Build FAILED"/"danger" attachment and an empty
top-level text. -/
theorem C4_attachment_mode_witness :
    exampleAttachmentConfigs.FormattingMode = formattingModeAttachment ∧
    ConfigsModel.validate exampleAttachmentConfigs = none ∧
    buildRequestParams exampleAttachmentConfigs = some exampleAttachmentParams ∧
    (exampleAttachmentParams.Attachments =
        [{ Fallback := msgText exampleAttachmentConfigs,
           Text := msgText exampleAttachmentConfigs,
           Color := msgColor exampleAttachmentConfigs }] ∧
      exampleAttachmentParams.Text = "") :=
  ⟨rfl, rfl, rfl,
    C4_attachment_mode exampleAttachmentConfigs exampleAttachmentParams rfl rfl rfl⟩

/-- C5: in `text` mode (after validation) the built payload's top-level
text equals the finalized message, the attachment list is empty, and the
serialized JSON contains no `attachments` member at all (`omitempty` on a
nil slice). -/
theorem C5_text_mode (configs : ConfigsModel) (p : RequestParams)
    (hmode : configs.FormattingMode = formattingModeText)
    (hval : configs.validate = none)
    (h : buildRequestParams configs = some p) :
    p.Text = msgText configs ∧ p.Attachments = [] ∧
    marshalRequestParams p =
      "\x7b\"text\":" ++ goJSONString p.Text
        ++ ",\"channel\":" ++ jsonOptValue p.Channel
        ++ ",\"username\":" ++ jsonOptValue p.Username
        ++ ",\"icon_emoji\":" ++ jsonOptValue p.EmojiIcon
        ++ ",\"icon_url\":" ++ jsonOptValue p.IconURL
        ++ "\x7d" := by
  obtain ⟨-, -, -, -, hbranch⟩ := buildRequestParams_inv configs p h
  rcases hbranch with ⟨hm, -, -⟩ | ⟨-, ht, ha⟩
  · rw [hmode] at hm
    exact absurd hm (by decide)
  · refine ⟨ht, ha, ?_⟩
    unfold marshalRequestParams
    rw [ha]
    simp

/-- C5 witness: the spec's `text`-mode example yields top-level text
"Build OK", no attachments, and a serialization without an `attachments`
member. -/
theorem C5_text_mode_witness :
    exampleTextConfigs.FormattingMode = formattingModeText ∧
    ConfigsModel.validate exampleTextConfigs = none ∧
    buildRequestParams exampleTextConfigs = some exampleTextParams ∧
    (exampleTextParams.Text = msgText exampleTextConfigs ∧
      exampleTextParams.Attachments = [] ∧
      marshalRequestParams exampleTextParams =
        "\x7b\"text\":" ++ goJSONString exampleTextParams.Text
          ++ ",\"channel\":" ++ jsonOptValue exampleTextParams.Channel
          ++ ",\"username\":" ++ jsonOptValue exampleTextParams.Username
          ++ ",\"icon_emoji\":" ++ jsonOptValue exampleTextParams.EmojiIcon
          ++ ",\"icon_url\":" ++ jsonOptValue exampleTextParams.IconURL
          ++ "\x7d") :=
  ⟨rfl, rfl, rfl, C5_text_mode exampleTextConfigs exampleTextParams rfl rfl rfl⟩

theorem invalid_mode_message_ne (v s : String) (hs : s.data.head? ≠ some 'I') :
    "Invalid FormattingMode: " ++ v ≠ s := by
  intro h
  apply hs
  rw [← h]
  rfl

/-- C6: `validate` short-circuits in the fixed order webhook URL /
message / color / empty mode / unrecognized mode, returns a distinct
error message for each condition (the unrecognized-mode error naming the
offending value), and returns no error exactly when all five checks
pass. -/
theorem C6_validate_short_circuit (configs : ConfigsModel) :
    (configs.validate = none ↔
      configs.WebhookURL ≠ "" ∧ configs.Message ≠ "" ∧ configs.Color ≠ "" ∧
        (configs.FormattingMode = formattingModeText ∨
          configs.FormattingMode = formattingModeAttachment)) ∧
    (configs.WebhookURL = "" →
      configs.validate = some "No Webhook URL parameter specified!") ∧
    (configs.WebhookURL ≠ "" → configs.Message = "" →
      configs.validate = some "No Message parameter specified!") ∧
    (configs.WebhookURL ≠ "" → configs.Message ≠ "" → configs.Color = "" →
      configs.validate = some "No Color parameter specified!") ∧
    (configs.WebhookURL ≠ "" → configs.Message ≠ "" → configs.Color ≠ "" →
      configs.FormattingMode = "" →
      configs.validate = some "No FormattingMode parameter specified!") ∧
    (configs.WebhookURL ≠ "" → configs.Message ≠ "" → configs.Color ≠ "" →
      configs.FormattingMode ≠ "" →
      configs.FormattingMode ≠ formattingModeText →
      configs.FormattingMode ≠ formattingModeAttachment →
      configs.validate = some ("Invalid FormattingMode: " ++ configs.FormattingMode)) ∧
    ("No Webhook URL parameter specified!" ≠ "No Message parameter specified!" ∧
      "No Webhook URL parameter specified!" ≠ "No Color parameter specified!" ∧
      "No Webhook URL parameter specified!" ≠ "No FormattingMode parameter specified!" ∧
      "No Message parameter specified!" ≠ "No Color parameter specified!" ∧
      "No Message parameter specified!" ≠ "No FormattingMode parameter specified!" ∧
      "No Color parameter specified!" ≠ "No FormattingMode parameter specified!") ∧
    (∀ v : String,
      "Invalid FormattingMode: " ++ v ≠ "No Webhook URL parameter specified!" ∧
      "Invalid FormattingMode: " ++ v ≠ "No Message parameter specified!" ∧
      "Invalid FormattingMode: " ++ v ≠ "No Color parameter specified!" ∧
      "Invalid FormattingMode: " ++ v ≠ "No FormattingMode parameter specified!") := by
  refine ⟨?_, ?_, ?_, ?_, ?_, ?_, by decide, ?_⟩
  · constructor
    · intro h
      unfold ConfigsModel.validate at h
      split_ifs at h with h1 h2 h3 h4 h5 <;> simp_all
    · rintro ⟨h1, h2, h3, h4⟩
      simp [ConfigsModel.validate, h1, h2, h3, h4]
  · intro h1
    simp [ConfigsModel.validate, h1]
  · intro h1 h2
    simp [ConfigsModel.validate, h1, h2]
  · intro h1 h2 h3
    simp [ConfigsModel.validate, h1, h2, h3]
  · intro h1 h2 h3 h4
    simp [ConfigsModel.validate, h1, h2, h3, h4, formattingModeText,
      formattingModeAttachment]
  · intro h1 h2 h3 h0 ht ha
    simp [ConfigsModel.validate, h1, h2, h3, h0, ht, ha]
  · intro v
    exact ⟨invalid_mode_message_ne v _ (by decide),
      invalid_mode_message_ne v _ (by decide),
      invalid_mode_message_ne v _ (by decide),
      invalid_mode_message_ne v _ (by decide)⟩

/-- C6 witness: the empty configuration fails with the webhook-URL
error, and the spec's `text`-mode example passes validation. -/
theorem C6_validate_short_circuit_witness :
    ConfigsModel.validate {} = some "No Webhook URL parameter specified!" ∧
    ConfigsModel.validate exampleTextConfigs = none :=
  ⟨(C6_validate_short_circuit {}).2.1 rfl,
    ((C6_validate_short_circuit exampleTextConfigs).1).mpr
      ⟨by decide, by decide, by decide, Or.inl rfl⟩⟩

/-- C10: once `validate` has accepted a configuration, the fatal abort of
`CreatePayloadParam` for an unrecognized formatting mode is unreachable:
the mode is `text` or `attachment`, exactly one of the two formatting
branches applies, and `buildRequestParams` succeeds. -/
theorem C10_abort_unreachable_after_validate (configs : ConfigsModel)
    (h : configs.validate = none) :
    (configs.FormattingMode = formattingModeText ∨
      configs.FormattingMode = formattingModeAttachment) ∧
    (configs.FormattingMode = formattingModeText ↔
      configs.FormattingMode ≠ formattingModeAttachment) ∧
    (buildRequestParams configs).isSome = true := by
  have hm : configs.FormattingMode = formattingModeText ∨
      configs.FormattingMode = formattingModeAttachment := by
    unfold ConfigsModel.validate at h
    split_ifs at h with h1 h2 h3 h4 h5 <;> simp_all
  refine ⟨hm, ?_, ?_⟩
  · constructor
    · intro ht
      rw [ht]
      decide
    · intro hne
      rcases hm with h' | h'
      · exact h'
      · exact absurd h' hne
  · rcases hm with h' | h'
    · have hna : formattingModeText ≠ formattingModeAttachment := by decide
      simp [buildRequestParams, h', hna]
    · simp [buildRequestParams, h']

/-- C10 witness: the validated `attachment`-mode example takes exactly
the attachment branch and the payload builder succeeds. -/
theorem C10_abort_unreachable_after_validate_witness :
    ConfigsModel.validate exampleAttachmentConfigs = none ∧
    (exampleAttachmentConfigs.FormattingMode = formattingModeText ∨
      exampleAttachmentConfigs.FormattingMode = formattingModeAttachment) ∧
    (buildRequestParams exampleAttachmentConfigs).isSome = true :=
  ⟨rfl,
    (C10_abort_unreachable_after_validate exampleAttachmentConfigs rfl).1,
    (C10_abort_unreachable_after_validate exampleAttachmentConfigs rfl).2.2⟩
